import Mathlib

/-!
Session controller and command gateway of the game client

Shallow embedding of `src/otclient/core/game.cpp` and `game.h` (class `Game`).

* The five member fields of `Game` become the fields of the structure `Game`.
* Smart pointers (`LocalPlayerPtr`, `ProtocolGamePtr`, `ThingPtr`, `CreaturePtr`,
  `TilePtr`) become `Option`; dereferencing an empty pointer is a `Fault`.
* Every call that leaves the class (a scripting notification through
  `g_lua.callGlobalField`, a request on the protocol object, a log line, an
  event posted on the dispatcher) is recorded, in program order, as an `Effect`.
* Member functions whose pointer dereferences are all guarded are total
  functions `Game → Game × List Effect`; the others return
  `Except Fault (Game × List Effect)`.
-/

namespace Otc

/-- The eight directions enumerated by the `switch` of `Game::walk`. -/
inductive Direction where
  | North | East | South | West | NorthEast | SouthEast | SouthWest | NorthWest
  deriving DecidableEq, Repr

end Otc

/-- The constructor call `Position(x, y, z)`. -/
structure Position where
  x : Int
  y : Int
  z : Int
  deriving DecidableEq, Repr

/-- The fields of a thing that the core reads: `getId()` and `getPos()`. -/
structure Thing where
  id : Nat
  pos : Position
  deriving DecidableEq, Repr

/-- The field of a creature that the core reads: `getId()`. -/
structure Creature where
  id : Nat
  deriving DecidableEq, Repr

/-- The argument of `setOutfit`, passed through to the protocol untouched. -/
structure Outfit where
  type : Nat
  head : Nat
  body : Nat
  legs : Nat
  feet : Nat
  addons : Nat
  deriving DecidableEq, Repr

/-- Modelled from the spec: the class `LocalPlayer` (localplayer.h) is not among the
sources. The spec gives it an attacking-target reference, a following-target
reference and a movement state; the movement state is kept abstract as a number
that only `clientWalk` rewrites. -/
structure LocalPlayer where
  id : Nat
  m_attackingCreature : Option Creature
  m_followingCreature : Option Creature
  movement : Nat
  deriving DecidableEq, Repr

namespace LocalPlayer

/-- Modelled from the spec: `isAttacking()` of the missing class `LocalPlayer`,
true when the attacking-target reference is set. -/
def isAttacking (p : LocalPlayer) : Bool := p.m_attackingCreature.isSome

/-- Modelled from the spec: `isFollowing()` of the missing class `LocalPlayer`,
true when the following-target reference is set. -/
def isFollowing (p : LocalPlayer) : Bool := p.m_followingCreature.isSome

/-- Modelled from the spec: `setAttackingCreature` of the missing class `LocalPlayer`
stores the attacking-target reference. -/
def setAttackingCreature (p : LocalPlayer) (c : Option Creature) : LocalPlayer :=
  { p with m_attackingCreature := c }

/-- Modelled from the spec: `setFollowingCreature` of the missing class `LocalPlayer`
stores the following-target reference. -/
def setFollowingCreature (p : LocalPlayer) (c : Option Creature) : LocalPlayer :=
  { p with m_followingCreature := c }

end LocalPlayer

/-- The transport object `ProtocolGame`. Only its presence is state of the core; every
call made on it is recorded as an `Effect`. -/
structure ProtocolGame where
  deriving DecidableEq, Repr

/-- Modelled from the spec: the class `Tile` (tile.h) is not among the sources. A tile is
the ordered stack of the things standing on it. -/
structure Tile where
  things : List Thing
  deriving DecidableEq, Repr

/-- Modelled from the spec: `Tile.indexOf(thing) -> integer|NotFound` of the missing
class `Tile`: the index of the thing in the stack, or -1. -/
def Tile.getThingStackpos (tile : Tile) (thing : Thing) : Int :=
  if thing ∈ tile.things then (tile.things.indexOf thing : Nat) else -1

/-- The argument of `processConnectionError`: `asio::error::eof` or any other error
code, which carries the text that `message()` returns. -/
inductive ErrorCode where
  | eof
  | other (message : String)
  deriving DecidableEq, Repr

/-- The text returned by `error.message()`. -/
def ErrorCode.message : ErrorCode → String
  | ErrorCode.eof => "End of file"
  | ErrorCode.other m => m

/-- The send methods of the protocol object that `Game` calls. -/
inductive Request where
  | sendLogout
  | sendWalk (d : Otc.Direction)
  | sendTurn (d : Otc.Direction)
  | sendLookAt (pos : Position) (id : Nat) (stackpos : Int)
  | sendUseItem (pos : Position) (id : Nat) (stackpos : Int) (index : Nat)
  | sendRotateItem (pos : Position) (id : Nat) (stackpos : Int)
  | sendAttack (id : Nat)
  | sendFollow (id : Nat)
  | sendTalk (channelType : Int) (channelId : Int) (receiver : String) (message : String)
  | sendInviteToParty (creatureId : Int)
  | sendGetOutfit
  | sendSetOutfit (outfit : Outfit)
  | sendAddVip (name : String)
  | sendRemoveVip (playerId : Int)
  deriving DecidableEq, Repr

/-- The member function bound into a scheduled event. -/
inductive Callback where
  | forceLogout
  deriving DecidableEq, Repr

/-- Everything `Game` does outside its own fields, in program order. -/
inductive Effect where
  | login (account password worldHost : String) (worldPort : Nat) (characterName : String)
  | send (r : Request)
  | disconnect
  | onLoginError (error : String)
  | onConnectionError (message : String)
  | onLogin (player : Option LocalPlayer)
  | onLogout (player : Option LocalPlayer)
  | onDeath
  | onTextMessage (type : Int) (message : String)
  | onInventoryChange (slot : Int) (item : Option Thing)
  | logError (message : String)
  | scheduleEvent (callback : Callback) (delay : Nat)
  deriving DecidableEq, Repr

namespace Effect

/-- A request handed to the network layer through one of the send methods. -/
def isRequest : Effect → Bool
  | send _ => true
  | _ => false

/-- A walk request. -/
def isWalkRequest : Effect → Bool
  | send (Request.sendWalk _) => true
  | _ => false

/-- A scripting notification (`g_lua.callGlobalField`). -/
def isNotification : Effect → Bool
  | onLoginError _ => true
  | onConnectionError _ => true
  | onLogin _ => true
  | onLogout _ => true
  | onDeath => true
  | onTextMessage _ _ => true
  | onInventoryChange _ _ => true
  | _ => false

/-- A line written by `logError`. -/
def isLog : Effect → Bool
  | logError _ => true
  | _ => false

end Effect

/-- A dereference of an empty pointer. -/
inductive Fault where
  | nullLocalPlayer
  | nullProtocolGame
  | nullThing
  | nullTile
  deriving DecidableEq, Repr

deriving instance DecidableEq for Except

/-- The member fields of `class Game` (game.h, lines 83-87). -/
structure Game where
  m_localPlayer : Option LocalPlayer
  m_protocolGame : Option ProtocolGame
  m_online : Bool
  m_dead : Bool
  m_serverBeat : Int
  deriving DecidableEq, Repr

/-- What the gateway reads from its collaborators: the build switch
`DISABLE_BOT_PROTECTION` (negated), `g_lua.isInCppCallback()`,
`g_ui.isOnInputEvent()`, `g_map.getTile`, and the two movement functions of the
missing class `LocalPlayer`. -/
structure Env where
  botProtection : Bool
  isInCppCallback : Bool
  isOnInputEvent : Bool
  getTile : Position → Option Tile
  canWalk : LocalPlayer → Otc.Direction → Bool
  clientWalk : Nat → Otc.Direction → Nat

/-- Modelled from the spec: `clientWalk` of the missing class `LocalPlayer` "updates local
player movement state optimistically"; it rewrites the movement state only. -/
def LocalPlayer.clientWalk (p : LocalPlayer) (env : Env) (direction : Otc.Direction) :
    LocalPlayer :=
  { p with movement := env.clientWalk p.movement direction }

namespace Game

/-- The global `g_game` at process start: static storage, hence zeroed flags and empty
pointers. -/
def empty : Game :=
  { m_localPlayer := none, m_protocolGame := none, m_online := false, m_dead := false,
    m_serverBeat := 0 }

/-- Embeds `bool isOnline()` (game.h:73). -/
def isOnline (g : Game) : Bool := g.m_online

/-- Embeds `bool isDead()` (game.h:74). -/
def isDead (g : Game) : Bool := g.m_dead

/-- Embeds `void setServerBeat(int)` (game.h:76). -/
def setServerBeat (g : Game) (serverBeat : Int) : Game := { g with m_serverBeat := serverBeat }

/-- Embeds `Game::loginWorld` (game.cpp:33-39). The port is cast to `uint16`. -/
def loginWorld (g : Game) (account password worldHost : String) (worldPort : Int)
    (characterName : String) : Game × List Effect :=
  ({ g with m_online := false, m_dead := false, m_protocolGame := some ProtocolGame.mk },
   [Effect.login account password worldHost (worldPort % 65536).toNat characterName])

/-- Embeds `Game::processLogout` (game.cpp:80-93). -/
def processLogout (g : Game) : Game × List Effect :=
  let r1 : Game × List Effect :=
    if g.m_online then
      ({ g with m_localPlayer := none, m_online := false }, [Effect.onLogout g.m_localPlayer])
    else (g, [])
  let r2 : Game × List Effect :=
    if r1.1.m_protocolGame.isSome then
      ({ r1.1 with m_protocolGame := none }, [Effect.disconnect])
    else (r1.1, [])
  (r2.1, r1.2 ++ r2.2)

/-- Embeds `Game::cancelLogin` (game.cpp:41-44). -/
def cancelLogin (g : Game) : Game × List Effect := g.processLogout

/-- Embeds `Game::logout` (game.cpp:46-55). -/
def logout (g : Game) (force : Bool) : Game × List Effect :=
  if !g.m_protocolGame.isSome || !g.m_online then (g, [])
  else if force then
    let r := g.processLogout
    (r.1, Effect.send Request.sendLogout :: r.2)
  else (g, [Effect.send Request.sendLogout])

/-- Embeds `void forceLogout() { logout(true); }` (game.h:40). -/
def forceLogout (g : Game) : Game × List Effect := g.logout true

/-- Embeds `void cleanLogout() { logout(false); }` (game.h:41). -/
def cleanLogout (g : Game) : Game × List Effect := g.logout false

/-- Embeds `Game::processLoginError` (game.cpp:57-60). -/
def processLoginError (g : Game) (error : String) : Game × List Effect :=
  (g, [Effect.onLoginError error])

/-- Embeds `Game::processConnectionError` (game.cpp:62-71). -/
def processConnectionError (g : Game) (error : ErrorCode) : Game × List Effect :=
  if g.m_protocolGame.isSome then
    let out : List Effect :=
      if error ≠ ErrorCode.eof then [Effect.onConnectionError error.message] else []
    let r := g.processLogout
    (r.1, out ++ r.2)
  else (g, [])

/-- Embeds `Game::processLogin` (game.cpp:73-78). -/
def processLogin (g : Game) (localPlayer : Option LocalPlayer) : Game × List Effect :=
  ({ g with m_localPlayer := localPlayer, m_online := true }, [Effect.onLogin localPlayer])

/-- Embeds `Game::processDeath` (game.cpp:95-102). -/
def processDeath (g : Game) : Game × List Effect :=
  ({ g with m_dead := true },
   [Effect.onDeath, Effect.scheduleEvent Callback.forceLogout (5 * 1000)])

/-- Embeds `Game::processTextMessage` (game.cpp:104-107). -/
def processTextMessage (g : Game) (type : Int) (message : String) : Game × List Effect :=
  (g, [Effect.onTextMessage type message])

/-- Embeds `Game::processInventoryChange` (game.cpp:109-115). The item is returned with the
position that `setPos` stamps on it. -/
def processInventoryChange (g : Game) (slot : Int) (item : Option Thing) :
    Game × Option Thing × List Effect :=
  let item1 : Option Thing :=
    match item with
    | some i => some { i with pos := Position.mk 65535 slot 0 }
    | none => none
  (g, item1, [Effect.onInventoryChange slot item1])

/-- Embeds `Game::processAttackCancel` (game.cpp:117-121). -/
def processAttackCancel (g : Game) : Except Fault (Game × List Effect) :=
  match g.m_localPlayer with
  | none => Except.error Fault.nullLocalPlayer
  | some p =>
    if p.isAttacking then
      Except.ok ({ g with m_localPlayer := some (p.setAttackingCreature none) }, [])
    else Except.ok (g, [])

/-- Embeds `Game::checkBotProtection` (game.cpp:323-332): the verdict and what it logs. -/
def checkBotProtection (env : Env) : Bool × List Effect :=
  if env.botProtection && (env.isInCppCallback && !env.isOnInputEvent) then
    (false, [Effect.logError
      "caught a lua call to a bot protected game function, the call was canceled"])
  else (true, [])

/-- Embeds `Game::cancelAttack` (game.cpp:216-220). -/
def cancelAttack (g : Game) : Except Fault (Game × List Effect) :=
  match g.m_localPlayer with
  | none => Except.error Fault.nullLocalPlayer
  | some p =>
    match g.m_protocolGame with
    | none => Except.error Fault.nullProtocolGame
    | some _ =>
      Except.ok ({ g with m_localPlayer := some (p.setAttackingCreature none) },
        [Effect.send (Request.sendAttack 0)])

/-- Embeds `Game::cancelFollow` (game.cpp:234-238). -/
def cancelFollow (g : Game) : Except Fault (Game × List Effect) :=
  match g.m_localPlayer with
  | none => Except.error Fault.nullLocalPlayer
  | some p =>
    match g.m_protocolGame with
    | none => Except.error Fault.nullProtocolGame
    | some _ =>
      Except.ok ({ g with m_localPlayer := some (p.setFollowingCreature none) },
        [Effect.send (Request.sendFollow 0)])

/-- Embeds `Game::walk` (game.cpp:123-161). The guards of line 130 are evaluated left to right
and stop at the first one that holds. -/
def walk (env : Env) (g : Game) (direction : Otc.Direction) : Except Fault (Game × List Effect) :=
  match g.m_localPlayer with
  | none => Except.error Fault.nullLocalPlayer
  | some p =>
    if p.isFollowing then g.cancelFollow
    else if !g.isOnline || g.isDead then Except.ok (g, [])
    else
      let bot := checkBotProtection env
      if !bot.1 then Except.ok (g, bot.2)
      else if !env.canWalk p direction then Except.ok (g, bot.2)
      else
        match g.m_protocolGame with
        | none => Except.error Fault.nullProtocolGame
        | some _ =>
          Except.ok
            ({ g with m_localPlayer := some (p.clientWalk env direction) },
             bot.2 ++ [Effect.send (Request.sendWalk direction)])

/-- Embeds `Game::turn` (game.cpp:163-182): the `switch` has the four cardinal cases only. -/
def turn (g : Game) (direction : Otc.Direction) : Except Fault (Game × List Effect) :=
  if !g.m_online then Except.ok (g, [])
  else
    match direction with
    | Otc.Direction.North | Otc.Direction.East | Otc.Direction.South | Otc.Direction.West =>
      match g.m_protocolGame with
      | none => Except.error Fault.nullProtocolGame
      | some _ => Except.ok (g, [Effect.send (Request.sendTurn direction)])
    | _ => Except.ok (g, [])

/-- Embeds `Game::getThingStackpos` (game.cpp:250-260). -/
def getThingStackpos (env : Env) (thing : Option Thing) : Except Fault Int :=
  match thing with
  | none => Except.error Fault.nullThing
  | some t =>
    if t.pos.x ≠ 65535 then
      match env.getTile t.pos with
      | none => Except.error Fault.nullTile
      | some tile => Except.ok (tile.getThingStackpos t)
    else Except.ok 0

/-- The common body of `look`, `use` and `rotate`: the guard, the stack position, and
the request built from it. -/
def withStackpos (env : Env) (g : Game) (thing : Option Thing)
    (request : Thing → Int → Request) : Except Fault (Game × List Effect) :=
  if !g.m_online then Except.ok (g, [])
  else
    match thing with
    | none => Except.ok (g, [])
    | some t =>
      let bot := checkBotProtection env
      if !bot.1 then Except.ok (g, bot.2)
      else
        match getThingStackpos env (some t) with
        | Except.error f => Except.error f
        | Except.ok stackpos =>
          if stackpos ≠ -1 then
            match g.m_protocolGame with
            | none => Except.error Fault.nullProtocolGame
            | some _ => Except.ok (g, bot.2 ++ [Effect.send (request t stackpos)])
          else Except.ok (g, bot.2)

/-- Embeds `Game::look` (game.cpp:184-192). -/
def look (env : Env) (g : Game) (thing : Option Thing) : Except Fault (Game × List Effect) :=
  withStackpos env g thing (fun t stackpos => Request.sendLookAt t.pos t.id stackpos)

/-- Embeds `Game::use` (game.cpp:194-202). -/
def use (env : Env) (g : Game) (thing : Option Thing) : Except Fault (Game × List Effect) :=
  withStackpos env g thing (fun t stackpos => Request.sendUseItem t.pos t.id stackpos 0)

/-- Embeds `Game::rotate` (game.cpp:240-248). -/
def rotate (env : Env) (g : Game) (thing : Option Thing) : Except Fault (Game × List Effect) :=
  withStackpos env g thing (fun t stackpos => Request.sendRotateItem t.pos t.id stackpos)

/-- Embeds `Game::attack` (game.cpp:204-214). -/
def attack (env : Env) (g : Game) (creature : Option Creature) :
    Except Fault (Game × List Effect) :=
  if !g.m_online then Except.ok (g, [])
  else
    match creature with
    | none => Except.ok (g, [])
    | some c =>
      let bot := checkBotProtection env
      if !bot.1 then Except.ok (g, bot.2)
      else
        match g.m_localPlayer with
        | none => Except.error Fault.nullLocalPlayer
        | some p =>
          match (if p.isFollowing then g.cancelFollow else Except.ok (g, [])) with
          | Except.error f => Except.error f
          | Except.ok r =>
            match r.1.m_localPlayer with
            | none => Except.error Fault.nullLocalPlayer
            | some p1 =>
              match r.1.m_protocolGame with
              | none => Except.error Fault.nullProtocolGame
              | some _ =>
                Except.ok
                  ({ r.1 with m_localPlayer := some (p1.setAttackingCreature (some c)) },
                   bot.2 ++ r.2 ++ [Effect.send (Request.sendAttack c.id)])

/-- Embeds `Game::follow` (game.cpp:222-232). -/
def follow (env : Env) (g : Game) (creature : Option Creature) :
    Except Fault (Game × List Effect) :=
  if !g.m_online then Except.ok (g, [])
  else
    match creature with
    | none => Except.ok (g, [])
    | some c =>
      let bot := checkBotProtection env
      if !bot.1 then Except.ok (g, bot.2)
      else
        match g.m_localPlayer with
        | none => Except.error Fault.nullLocalPlayer
        | some p =>
          match (if p.isAttacking then g.cancelAttack else Except.ok (g, [])) with
          | Except.error f => Except.error f
          | Except.ok r =>
            match r.1.m_localPlayer with
            | none => Except.error Fault.nullLocalPlayer
            | some p1 =>
              match r.1.m_protocolGame with
              | none => Except.error Fault.nullProtocolGame
              | some _ =>
                Except.ok
                  ({ r.1 with m_localPlayer := some (p1.setFollowingCreature (some c)) },
                   bot.2 ++ r.2 ++ [Effect.send (Request.sendFollow c.id)])

/-- The common body of the forwards that are guarded by
`if(!m_online || !checkBotProtection()) return;` and then send one request. -/
def forward (env : Env) (g : Game) (request : Request) : Except Fault (Game × List Effect) :=
  if !g.m_online then Except.ok (g, [])
  else
    let bot := checkBotProtection env
    if !bot.1 then Except.ok (g, bot.2)
    else
      match g.m_protocolGame with
      | none => Except.error Fault.nullProtocolGame
      | some _ => Except.ok (g, bot.2 ++ [Effect.send request])

/-- Embeds `Game::talkChannel` (game.cpp:267-273). -/
def talkChannel (env : Env) (g : Game) (channelType channelId : Int) (message : String) :
    Except Fault (Game × List Effect) :=
  forward env g (Request.sendTalk channelType channelId "" message)

/-- Embeds `Game::talk` (game.cpp:262-265). -/
def talk (env : Env) (g : Game) (message : String) : Except Fault (Game × List Effect) :=
  talkChannel env g 1 0 message

/-- Embeds `Game::talkPrivate` (game.cpp:275-281). -/
def talkPrivate (env : Env) (g : Game) (channelType : Int) (receiver message : String) :
    Except Fault (Game × List Effect) :=
  forward env g (Request.sendTalk channelType 0 receiver message)

/-- Embeds `Game::inviteToParty` (game.cpp:283-289). -/
def inviteToParty (env : Env) (g : Game) (creatureId : Int) : Except Fault (Game × List Effect) :=
  forward env g (Request.sendInviteToParty creatureId)

/-- Embeds `Game::openOutfitWindow` (game.cpp:291-297). -/
def openOutfitWindow (env : Env) (g : Game) : Except Fault (Game × List Effect) :=
  forward env g Request.sendGetOutfit

/-- Embeds `Game::setOutfit` (game.cpp:299-305). -/
def setOutfit (env : Env) (g : Game) (outfit : Outfit) : Except Fault (Game × List Effect) :=
  forward env g (Request.sendSetOutfit outfit)

/-- Embeds `Game::addVip` (game.cpp:307-313): the empty name is tested before the bot check. -/
def addVip (env : Env) (g : Game) (name : String) : Except Fault (Game × List Effect) :=
  if !g.m_online || name.isEmpty then Except.ok (g, [])
  else forward env g (Request.sendAddVip name)

/-- Embeds `Game::removeVip` (game.cpp:315-321). -/
def removeVip (env : Env) (g : Game) (playerId : Int) : Except Fault (Game × List Effect) :=
  forward env g (Request.sendRemoveVip playerId)

end Game

/-! ## The session as a state machine -/

/-- The invariant of the data model: online implies a protocol link, and a local player
implies online. -/
def SessionInvariant (g : Game) : Prop :=
  (g.m_online = true → g.m_protocolGame.isSome = true) ∧
  (g.m_localPlayer.isSome = true → g.m_online = true)

instance (g : Game) : Decidable (SessionInvariant g) := by
  unfold SessionInvariant
  exact inferInstance

/-- The lifecycle entry points of `Game`, with their arguments. -/
inductive SessionOp where
  | loginWorld (account password worldHost : String) (worldPort : Int) (characterName : String)
  | cancelLogin
  | logout (force : Bool)
  | processLogin (localPlayer : Option LocalPlayer)
  | processLogout
  | processDeath
  | processConnectionError (error : ErrorCode)
  | processLoginError (error : String)
  deriving DecidableEq, Repr

namespace SessionOp

/-- The member function an operation stands for. -/
def apply : SessionOp → Game → Game × List Effect
  | loginWorld a p h port c, g => g.loginWorld a p h port c
  | cancelLogin, g => g.cancelLogin
  | logout force, g => g.logout force
  | processLogin player, g => g.processLogin player
  | processLogout, g => g.processLogout
  | processDeath, g => g.processDeath
  | processConnectionError e, g => g.processConnectionError e
  | processLoginError e, g => g.processLoginError e

/-- The caller preconditions: `loginWorld` only while no protocol link exists,
`processLogin` only while a link exists and the session is not online. -/
def permitted : SessionOp → Game → Bool
  | loginWorld _ _ _ _ _, g => !g.m_protocolGame.isSome
  | processLogin _, g => g.m_protocolGame.isSome && !g.m_online
  | _, _ => true

end SessionOp

/-- Runs a sequence of lifecycle operations; `none` when one of them is applied outside
its precondition. -/
def runSession : List SessionOp → Game → Option Game
  | [], g => some g
  | op :: ops, g => if op.permitted g then runSession ops (op.apply g).1 else none

/-- The state after `n` successive calls of `processDeath`. -/
def processDeaths : Nat → Game → Game
  | 0, g => g
  | n + 1, g => processDeaths n g.processDeath.1

/-- A local player with no target, used in the concrete checks. -/
def samplePlayer : LocalPlayer :=
  { id := 7, m_attackingCreature := none, m_followingCreature := none, movement := 0 }

/-- A session that is online with `samplePlayer`. -/
def sampleOnline : Game :=
  { m_localPlayer := some samplePlayer, m_protocolGame := some ProtocolGame.mk,
    m_online := true, m_dead := false, m_serverBeat := 50 }

/-- A session whose login request is still pending. -/
def sampleConnecting : Game :=
  { m_localPlayer := none, m_protocolGame := some ProtocolGame.mk,
    m_online := false, m_dead := false, m_serverBeat := 0 }

/-! ## The command gateway as one dispatcher -/

/-- The gated entry points of `Game`, with their arguments. -/
inductive GameAction where
  | walk (direction : Otc.Direction)
  | turn (direction : Otc.Direction)
  | look (thing : Option Thing)
  | use (thing : Option Thing)
  | rotate (thing : Option Thing)
  | attack (creature : Option Creature)
  | follow (creature : Option Creature)
  | talk (message : String)
  | talkChannel (channelType channelId : Int) (message : String)
  | talkPrivate (channelType : Int) (receiver message : String)
  | inviteToParty (creatureId : Int)
  | openOutfitWindow
  | setOutfit (outfit : Outfit)
  | addVip (name : String)
  | removeVip (playerId : Int)
  deriving DecidableEq, Repr

namespace GameAction

/-- The member function an action stands for. -/
def run (env : Env) (g : Game) : GameAction → Except Fault (Game × List Effect)
  | walk d => g.walk env d
  | turn d => g.turn d
  | look t => g.look env t
  | use t => g.use env t
  | rotate t => g.rotate env t
  | attack c => g.attack env c
  | follow c => g.follow env c
  | talk m => g.talk env m
  | talkChannel ty ch m => g.talkChannel env ty ch m
  | talkPrivate ty r m => g.talkPrivate env ty r m
  | inviteToParty c => g.inviteToParty env c
  | openOutfitWindow => g.openOutfitWindow env
  | setOutfit o => g.setOutfit env o
  | addVip n => g.addVip env n
  | removeVip i => g.removeVip env i

/-- The action is `walk`. -/
def isWalk : GameAction → Bool
  | walk _ => true
  | _ => false

/-- The action is `turn`. -/
def isTurn : GameAction → Bool
  | turn _ => true
  | _ => false

/-- The thing or creature argument of the action, when it takes one, is not empty. -/
def targetPresent : GameAction → Bool
  | look t => t.isSome
  | use t => t.isSome
  | rotate t => t.isSome
  | attack c => c.isSome
  | follow c => c.isSome
  | _ => true

/-- The name argument of `addVip` is not empty (true of every other action). -/
def namePresent : GameAction → Bool
  | addVip n => !n.isEmpty
  | _ => true

end GameAction

/-- The requests among the outputs of a call; empty when the call faults. -/
def requestsOf (r : Except Fault (Game × List Effect)) : List Effect :=
  match r with
  | Except.ok x => x.2.filter Effect.isRequest
  | Except.error _ => []

/-- A scripting callback outside any input event, with the bot protection compiled in. No
tile is known and every step is walkable. -/
def scriptEnv : Env :=
  { botProtection := true, isInCppCallback := true, isOnInputEvent := false,
    getTile := fun _ => none, canWalk := fun _ _ => true, clientWalk := fun m _ => m + 1 }

/-- A key press handled by the interface, with the bot protection compiled in. -/
def inputEnv : Env :=
  { botProtection := true, isInCppCallback := false, isOnInputEvent := true,
    getTile := fun _ => none, canWalk := fun _ _ => true, clientWalk := fun m _ => m + 1 }

/-- A local player that follows creature 9. -/
def sampleFollower : LocalPlayer :=
  { id := 7, m_attackingCreature := none, m_followingCreature := some (Creature.mk 9),
    movement := 0 }

/-- A session that is online with `sampleFollower`. -/
def sampleFollowing : Game :=
  { m_localPlayer := some sampleFollower, m_protocolGame := some ProtocolGame.mk,
    m_online := true, m_dead := false, m_serverBeat := 50 }

/-- A session that is online with `samplePlayer` after the death notification. -/
def sampleDead : Game :=
  { m_localPlayer := some samplePlayer, m_protocolGame := some ProtocolGame.mk,
    m_online := true, m_dead := true, m_serverBeat := 0 }

/-- A lifecycle run: login request, login success, death. -/
def sampleRun : List SessionOp :=
  [SessionOp.loginWorld "acc" "pw" "host" 7172 "Char",
   SessionOp.processLogin (some samplePlayer),
   SessionOp.processDeath]

/-! ## Deferred events and target bookkeeping -/

/-- Runs the member function that a scheduled event was bound to
(`std::bind(&Game::forceLogout, &g_game)`, game.cpp:101). -/
def Callback.run : Callback → Game → Game × List Effect
  | Callback.forceLogout, g => g.forceLogout

/-- The entry points that write the attacking or following target of the local player. -/
inductive TargetOp where
  | attack (creature : Option Creature)
  | follow (creature : Option Creature)
  | cancelAttack
  | cancelFollow
  | walk (direction : Otc.Direction)
  | processAttackCancel
  deriving DecidableEq, Repr

/-- The member function a target operation stands for. -/
def TargetOp.run (env : Env) (g : Game) : TargetOp → Except Fault (Game × List Effect)
  | TargetOp.attack c => g.attack env c
  | TargetOp.follow c => g.follow env c
  | TargetOp.cancelAttack => g.cancelAttack
  | TargetOp.cancelFollow => g.cancelFollow
  | TargetOp.walk d => g.walk env d
  | TargetOp.processAttackCancel => g.processAttackCancel

/-- Runs a sequence of target operations, each under its own collaborators (so each with
its own outcome of the bot check); stops at the first fault. -/
def runTargets : List (Env × TargetOp) → Game → Except Fault Game
  | [], g => Except.ok g
  | (env, op) :: ops, g =>
    match op.run env g with
    | Except.error f => Except.error f
    | Except.ok r => runTargets ops r.1

/-- The local player, when there is one, does not hold an attacking target and a
following target at once. -/
def targetsExclusive (g : Game) : Bool :=
  match g.m_localPlayer with
  | none => true
  | some p => !(p.isAttacking && p.isFollowing)

/-- A thing standing on the map. -/
def sampleThing : Thing := { id := 3031, pos := Position.mk 100 200 7 }

/-- A thing on the map at a position where the sample map has a tile that does not hold
it. -/
def sampleStray : Thing := { id := 2148, pos := Position.mk 100 200 7 }

/-- A thing on the map at a position where the sample map has no tile. -/
def sampleLost : Thing := { id := 2160, pos := Position.mk 5 5 5 }

/-- A thing carried in the inventory. -/
def sampleCarried : Thing := { id := 2400, pos := Position.mk 65535 6 0 }

/-- A key press handled by the interface, on a map with one tile, at (100, 200, 7), that
holds thing 1987 below `sampleThing`. -/
def mapEnv : Env :=
  { botProtection := true, isInCppCallback := false, isOnInputEvent := true,
    getTile := fun pos =>
      if pos = Position.mk 100 200 7 then
        some (Tile.mk [Thing.mk 1987 (Position.mk 100 200 7), sampleThing])
      else none,
    canWalk := fun _ _ => true, clientWalk := fun m _ => m + 1 }

/-- A mixed run of target operations: three from key presses, one from a script. -/
def sampleTargetRun : List (Env × TargetOp) :=
  [(inputEnv, TargetOp.follow (some (Creature.mk 9))),
   (inputEnv, TargetOp.attack (some (Creature.mk 4))),
   (scriptEnv, TargetOp.follow (some (Creature.mk 5))),
   (inputEnv, TargetOp.walk Otc.Direction.North)]

/-! ## Theorems -/

namespace Game

theorem processLogout_fst (g : Game) :
    g.processLogout.1 =
      { m_localPlayer := if g.m_online then none else g.m_localPlayer,
        m_protocolGame := none, m_online := false, m_dead := g.m_dead,
        m_serverBeat := g.m_serverBeat } := by
  rcases g with ⟨lp, pg, onl, dead, beat⟩
  cases onl <;> cases pg <;> simp [processLogout]

theorem processLogout_snd (g : Game) :
    g.processLogout.2 =
      (if g.m_online then [Effect.onLogout g.m_localPlayer] else []) ++
      (if g.m_protocolGame.isSome then [Effect.disconnect] else []) := by
  rcases g with ⟨lp, pg, onl, dead, beat⟩
  cases onl <;> cases pg <;> simp [processLogout]

theorem processLogout_invariant (g : Game) (h : SessionInvariant g) :
    SessionInvariant g.processLogout.1 := by
  rcases g with ⟨lp, pg, onl, dead, beat⟩
  rw [processLogout_fst]
  cases onl <;> simp_all [SessionInvariant]

theorem processDeaths_fields (n : Nat) (g : Game) :
    (processDeaths n g).m_online = g.m_online ∧
    (processDeaths n g).m_localPlayer = g.m_localPlayer ∧
    (processDeaths n g).m_protocolGame = g.m_protocolGame := by
  induction n generalizing g with
  | zero => simp [processDeaths]
  | succ n ih =>
    have h := ih g.processDeath.1
    simpa [processDeaths, processDeath] using h

end Game

theorem SessionOp.apply_invariant (op : SessionOp) (g : Game) (hp : op.permitted g = true)
    (h : SessionInvariant g) : SessionInvariant (op.apply g).1 := by
  cases op with
  | loginWorld a p host port c =>
    rcases g with ⟨lp, pg, onl, dead, beat⟩
    cases lp <;> simp_all [SessionOp.apply, SessionOp.permitted, Game.loginWorld, SessionInvariant]
  | cancelLogin => exact Game.processLogout_invariant g h
  | logout force =>
    simp only [SessionOp.apply, Game.logout]
    split
    · exact h
    · split
      · exact Game.processLogout_invariant g h
      · exact h
  | processLogin player =>
    simp_all [SessionOp.apply, SessionOp.permitted, Game.processLogin, SessionInvariant]
  | processLogout => exact Game.processLogout_invariant g h
  | processDeath => simpa [SessionOp.apply, Game.processDeath, SessionInvariant] using h
  | processConnectionError e =>
    simp only [SessionOp.apply, Game.processConnectionError]
    split
    · exact Game.processLogout_invariant g h
    · exact h
  | processLoginError e => exact h

theorem runSession_invariant (ops : List SessionOp) (g g' : Game) (h : SessionInvariant g)
    (hr : runSession ops g = some g') : SessionInvariant g' := by
  induction ops generalizing g with
  | nil =>
    simp only [runSession, Option.some.injEq] at hr
    exact hr ▸ h
  | cons op ops ih =>
    simp only [runSession] at hr
    split at hr
    · next hp => exact ih _ (SessionOp.apply_invariant op g hp h) hr
    · exact absurd hr (by simp)

/-- C1. Session invariant: every state reached from the empty initial session by a
sequence of loginWorld, cancelLogin, logout, processLogin, processLogout, processDeath,
processConnectionError and processLoginError, with loginWorld applied only while no
protocol link exists and processLogin only while a link exists and the session is not
online, has a protocol link whenever it is online and is online whenever it has a local
player. -/
theorem session_invariant_reachable (ops : List SessionOp) (g : Game)
    (hr : runSession ops Game.empty = some g) :
    (g.m_online = true → g.m_protocolGame.isSome = true) ∧
    (g.m_localPlayer.isSome = true → g.m_online = true) :=
  runSession_invariant ops Game.empty g (by decide) hr

theorem session_invariant_reachable_witness :
    runSession sampleRun Game.empty = some sampleDead ∧
    ((sampleDead.m_online = true → sampleDead.m_protocolGame.isSome = true) ∧
     (sampleDead.m_localPlayer.isSome = true → sampleDead.m_online = true)) :=
  ⟨by decide, session_invariant_reachable sampleRun sampleDead (by decide)⟩

/-- The caller precondition of loginWorld is needed for the session invariant: a second
loginWorld issued while online leaves a local player in a session that is not online. -/
theorem loginWorld_while_online_keeps_player :
    (sampleOnline.loginWorld "acc" "pw" "host" 7172 "Char").1.m_online = false ∧
    (sampleOnline.loginWorld "acc" "pw" "host" 7172 "Char").1.m_localPlayer =
      some samplePlayer := by
  decide

/-- C2. From every starting state, processLogin(P), then n calls of processDeath, then
processLogout ends with online false, the local player empty and the protocol link
empty. -/
theorem login_deaths_logout_tears_down (g : Game) (P : Option LocalPlayer) (n : Nat) :
    (processDeaths n (g.processLogin P).1).processLogout.1.m_online = false ∧
    (processDeaths n (g.processLogin P).1).processLogout.1.m_localPlayer = none ∧
    (processDeaths n (g.processLogin P).1).processLogout.1.m_protocolGame = none := by
  obtain ⟨h1, -, -⟩ := Game.processDeaths_fields n (g.processLogin P).1
  rw [Game.processLogout_fst, h1]
  simp [Game.processLogin]

/-- C3. processLogout is idempotent: a second call returns the state of the first and
outputs nothing. The first call outputs the onLogout notification exactly when the
state was online, carrying the local player held before the call, followed by the
disconnect exactly when a protocol link existed. -/
theorem processLogout_idempotent (s : Game) :
    s.processLogout.1.processLogout = (s.processLogout.1, []) ∧
    s.processLogout.2 =
      (if s.m_online then [Effect.onLogout s.m_localPlayer] else []) ++
      (if s.m_protocolGame.isSome then [Effect.disconnect] else []) ∧
    (∀ p, Effect.onLogout p ∈ s.processLogout.2 ↔ (s.m_online = true ∧ p = s.m_localPlayer)) ∧
    (Effect.disconnect ∈ s.processLogout.2 ↔ s.m_protocolGame ≠ none) := by
  refine ⟨?_, Game.processLogout_snd s, ?_, ?_⟩
  · apply Prod.ext
    · rw [Game.processLogout_fst, Game.processLogout_fst]
      simp
    · rw [Game.processLogout_snd, Game.processLogout_fst]
      simp
  · intro p
    rw [Game.processLogout_snd]
    rcases s with ⟨lp, pg, onl, dead, beat⟩
    cases onl <;> cases pg <;> simp [eq_comm]
  · rw [Game.processLogout_snd]
    rcases s with ⟨lp, pg, onl, dead, beat⟩
    cases onl <;> cases pg <;> simp

/-- C4. With no protocol link, processConnectionError changes nothing and outputs
nothing, for every error value, the end-of-stream error included. -/
theorem processConnectionError_without_link (s : Game) (error : ErrorCode)
    (h : s.m_protocolGame = none) :
    s.processConnectionError error = (s, []) := by
  simp [Game.processConnectionError, h]

theorem processConnectionError_without_link_witness :
    Game.empty.processConnectionError ErrorCode.eof = (Game.empty, []) ∧
    Game.empty.processConnectionError (ErrorCode.other "Connection reset by peer") =
      (Game.empty, []) :=
  ⟨processConnectionError_without_link Game.empty ErrorCode.eof rfl, by decide⟩

/-- C5. With a protocol link, processConnectionError outputs the onConnectionError
notification, with the message of the error, exactly when the error is not the
end-of-stream error; in both cases it then runs the teardown: the state is the one
processLogout produces and the outputs of processLogout (the disconnect among them)
follow the notification. The session ends not online and without a link, and, in a
session state (one where a local player implies online, as the data model requires),
without a local player. -/
theorem processConnectionError_with_link (s : Game) (error : ErrorCode)
    (h : s.m_protocolGame ≠ none) :
    (s.processConnectionError error).1 = s.processLogout.1 ∧
    (s.processConnectionError error).2 =
      (if error ≠ ErrorCode.eof then [Effect.onConnectionError error.message] else []) ++
        s.processLogout.2 ∧
    (∀ m, Effect.onConnectionError m ∈ (s.processConnectionError error).2 ↔
      (error ≠ ErrorCode.eof ∧ m = error.message)) ∧
    Effect.disconnect ∈ (s.processConnectionError error).2 ∧
    (s.processConnectionError error).1.m_online = false ∧
    (s.processConnectionError error).1.m_protocolGame = none ∧
    ((s.m_localPlayer.isSome = true → s.m_online = true) →
      (s.processConnectionError error).1.m_localPlayer = none) := by
  have hs : s.m_protocolGame.isSome = true := Option.isSome_iff_ne_none.mpr h
  have e1 : (s.processConnectionError error).1 = s.processLogout.1 := by
    simp [Game.processConnectionError, hs]
  have e2 : (s.processConnectionError error).2 =
      (if error ≠ ErrorCode.eof then [Effect.onConnectionError error.message] else []) ++
        s.processLogout.2 := by
    simp [Game.processConnectionError, hs]
  refine ⟨e1, e2, ?_, ?_, ?_, ?_, ?_⟩
  · intro m
    rw [e2, Game.processLogout_snd]
    by_cases he : error = ErrorCode.eof
    · cases hon : s.m_online <;> simp [he, hs]
    · cases hon : s.m_online <;> simp [he, hs, eq_comm]
  · rw [e2, Game.processLogout_snd]
    simp [hs]
  · rw [e1, Game.processLogout_fst]
  · rw [e1, Game.processLogout_fst]
  · intro hinv
    rw [e1, Game.processLogout_fst]
    cases hon : s.m_online
    · cases hlp : s.m_localPlayer
      · simp
      · simp [hlp, hon] at hinv
    · simp

theorem processConnectionError_with_link_witness :
    (sampleOnline.processConnectionError (ErrorCode.other "Connection reset by peer")).2 =
      [Effect.onConnectionError "Connection reset by peer", Effect.onLogout (some samplePlayer),
       Effect.disconnect] ∧
    (sampleOnline.processConnectionError ErrorCode.eof).2 =
      [Effect.onLogout (some samplePlayer), Effect.disconnect] ∧
    (sampleOnline.processConnectionError ErrorCode.eof).1.m_localPlayer = none :=
  ⟨by decide, by decide,
   (processConnectionError_with_link sampleOnline ErrorCode.eof (by decide)).2.2.2.2.2.2
     (by decide)⟩

/-- C6. logout(force): without a protocol link or while not online, the state is
unchanged and nothing is output, so a pending link is not torn down. Otherwise exactly
one logout request is sent, first; with force the teardown of processLogout follows
(not online, no local player, no link), without force the state is unchanged. -/
theorem logout_behaviour (s : Game) (force : Bool) :
    ((s.m_protocolGame = none ∨ s.m_online = false) → s.logout force = (s, [])) ∧
    ((s.m_protocolGame ≠ none ∧ s.m_online = true) →
      ((s.logout force).2.filter Effect.isRequest = [Effect.send Request.sendLogout] ∧
       s.logout true = (s.processLogout.1, Effect.send Request.sendLogout :: s.processLogout.2) ∧
       (s.logout true).1.m_online = false ∧
       (s.logout true).1.m_localPlayer = none ∧
       (s.logout true).1.m_protocolGame = none ∧
       s.logout false = (s, [Effect.send Request.sendLogout]))) := by
  rcases s with ⟨lp, pg, onl, dead, beat⟩
  constructor
  · rintro (h | h)
    · simp only at h
      subst h
      simp [Game.logout]
    · simp only at h
      subst h
      simp [Game.logout]
  · rintro ⟨h1, h2⟩
    simp only at h1 h2
    subst h2
    cases pg with
    | none => exact absurd rfl h1
    | some link =>
      cases force <;>
        simp [Game.logout, Game.processLogout, Effect.isRequest, List.filter]

theorem logout_behaviour_witness :
    sampleConnecting.logout true = (sampleConnecting, []) ∧
    sampleOnline.logout true =
      ({ sampleOnline with m_localPlayer := none, m_protocolGame := none, m_online := false },
       [Effect.send Request.sendLogout, Effect.onLogout (some samplePlayer),
        Effect.disconnect]) ∧
    sampleOnline.logout false = (sampleOnline, [Effect.send Request.sendLogout]) :=
  ⟨(logout_behaviour sampleConnecting true).1 (Or.inr rfl), by decide,
   ((logout_behaviour sampleOnline false).2 ⟨by decide, rfl⟩).2.2.2.2.2⟩

/-! ### The gateway -/

namespace Game

theorem checkBotProtection_script (env : Env) (hb : env.botProtection = true)
    (hc : env.isInCppCallback = true) (hi : env.isOnInputEvent = false) :
    checkBotProtection env = (false, [Effect.logError
      "caught a lua call to a bot protected game function, the call was canceled"]) := by
  simp [checkBotProtection, hb, hc, hi]

theorem forward_offline (env : Env) (s : Game) (req : Request) (h : s.m_online = false) :
    s.forward env req = Except.ok (s, []) := by
  simp [forward, h]

theorem withStackpos_offline (env : Env) (s : Game) (t : Option Thing)
    (req : Thing → Int → Request) (h : s.m_online = false) :
    s.withStackpos env t req = Except.ok (s, []) := by
  simp [withStackpos, h]

theorem forward_script (env : Env) (s : Game) (req : Request) (h : s.m_online = true)
    (hb : env.botProtection = true) (hc : env.isInCppCallback = true)
    (hi : env.isOnInputEvent = false) :
    s.forward env req = Except.ok (s, [Effect.logError
      "caught a lua call to a bot protected game function, the call was canceled"]) := by
  simp [forward, h, checkBotProtection_script env hb hc hi]

theorem withStackpos_script (env : Env) (s : Game) (t : Thing)
    (req : Thing → Int → Request) (h : s.m_online = true)
    (hb : env.botProtection = true) (hc : env.isInCppCallback = true)
    (hi : env.isOnInputEvent = false) :
    s.withStackpos env (some t) req = Except.ok (s, [Effect.logError
      "caught a lua call to a bot protected game function, the call was canceled"]) := by
  simp [withStackpos, h, checkBotProtection_script env hb hc hi]

theorem forward_dead (env : Env) (s : Game) (b : Bool) (req : Request) :
    Game.forward env { s with m_dead := b } req =
      (s.forward env req).map (fun r => ({ r.1 with m_dead := b }, r.2)) := by
  rcases s with ⟨lp, pg, onl, dead, beat⟩
  simp only [forward]
  generalize checkBotProtection env = bot
  rcases bot with ⟨ok, log⟩
  cases onl <;> cases ok <;> cases pg <;> simp [Except.map]

theorem withStackpos_dead (env : Env) (s : Game) (b : Bool) (t : Option Thing)
    (req : Thing → Int → Request) :
    Game.withStackpos env { s with m_dead := b } t req =
      (s.withStackpos env t req).map (fun r => ({ r.1 with m_dead := b }, r.2)) := by
  rcases s with ⟨lp, pg, onl, dead, beat⟩
  cases t with
  | none => cases onl <;> simp [withStackpos, Except.map]
  | some t =>
    simp only [withStackpos]
    generalize checkBotProtection env = bot
    generalize getThingStackpos env (some t) = sp
    rcases bot with ⟨ok, log⟩
    rcases sp with f | sp
    · cases onl <;> cases ok <;> simp [Except.map]
    · by_cases h : sp = -1
      · cases onl <;> cases ok <;> simp [Except.map, h]
      · cases onl <;> cases ok <;> cases pg <;> simp [Except.map, h]

theorem cancelFollow_dead (s : Game) (b : Bool) :
    Game.cancelFollow { s with m_dead := b } =
      s.cancelFollow.map (fun r => ({ r.1 with m_dead := b }, r.2)) := by
  rcases s with ⟨lp, pg, onl, dead, beat⟩
  cases lp <;> cases pg <;> simp [cancelFollow, Except.map]

theorem cancelAttack_dead (s : Game) (b : Bool) :
    Game.cancelAttack { s with m_dead := b } =
      s.cancelAttack.map (fun r => ({ r.1 with m_dead := b }, r.2)) := by
  rcases s with ⟨lp, pg, onl, dead, beat⟩
  cases lp <;> cases pg <;> simp [cancelAttack, Except.map]

theorem attack_dead (env : Env) (s : Game) (b : Bool) (c : Option Creature) :
    Game.attack env { s with m_dead := b } c =
      (s.attack env c).map (fun r => ({ r.1 with m_dead := b }, r.2)) := by
  rcases s with ⟨lp, pg, onl, dead, beat⟩
  cases c with
  | none => cases onl <;> simp [attack, Except.map]
  | some c =>
    simp only [attack, cancelFollow]
    generalize checkBotProtection env = bot
    rcases bot with ⟨ok, log⟩
    cases onl <;> cases ok <;> rcases lp with _ | p <;> cases pg <;>
      simp [Except.map] <;> cases p.isFollowing <;> simp

theorem follow_dead (env : Env) (s : Game) (b : Bool) (c : Option Creature) :
    Game.follow env { s with m_dead := b } c =
      (s.follow env c).map (fun r => ({ r.1 with m_dead := b }, r.2)) := by
  rcases s with ⟨lp, pg, onl, dead, beat⟩
  cases c with
  | none => cases onl <;> simp [follow, Except.map]
  | some c =>
    simp only [follow, cancelAttack]
    generalize checkBotProtection env = bot
    rcases bot with ⟨ok, log⟩
    cases onl <;> cases ok <;> rcases lp with _ | p <;> cases pg <;>
      simp [Except.map] <;> cases p.isAttacking <;> simp

/-- The dead flag is read by `walk` only: every other action commutes with rewriting it. -/
theorem run_dead_irrelevant (env : Env) (s : Game) (b : Bool) (a : GameAction)
    (ha : a.isWalk = false) :
    a.run env { s with m_dead := b } =
      (a.run env s).map (fun r => ({ r.1 with m_dead := b }, r.2)) := by
  cases a with
  | walk d => simp [GameAction.isWalk] at ha
  | turn d =>
    rcases s with ⟨lp, pg, onl, dead, beat⟩
    cases onl <;> cases pg <;> cases d <;> simp [GameAction.run, turn, Except.map]
  | look t => exact withStackpos_dead env s b t _
  | use t => exact withStackpos_dead env s b t _
  | rotate t => exact withStackpos_dead env s b t _
  | attack c => exact attack_dead env s b c
  | follow c => exact follow_dead env s b c
  | talk m => exact forward_dead env s b _
  | talkChannel ty ch m => exact forward_dead env s b _
  | talkPrivate ty r m => exact forward_dead env s b _
  | inviteToParty c => exact forward_dead env s b _
  | openOutfitWindow => exact forward_dead env s b _
  | setOutfit o => exact forward_dead env s b _
  | addVip n =>
    simp only [GameAction.run, addVip]
    by_cases h : (!s.m_online || n.isEmpty) = true
    · simp only [h, if_true, Except.map]
    · simp only [h, if_false]
      exact forward_dead env s b _
  | removeVip i => exact forward_dead env s b _

end Game

/-- C7, as stated, fails: on an online session whose player is dead, talk issued from a
key press is forwarded; so it is not true that every gated action of a dead player
sends no request. -/
theorem dead_player_talk_is_forwarded :
    sampleDead.m_online = true ∧ sampleDead.m_dead = true ∧
    (GameAction.talk "hi").run inputEnv sampleDead =
      Except.ok (sampleDead, [Effect.send (Request.sendTalk 1 0 "" "hi")]) ∧
    ¬ (∀ (env : Env) (s : Game) (a : GameAction), s.m_online = true → s.m_dead = true →
        a.isTurn = false → requestsOf (a.run env s) = []) := by
  refine ⟨rfl, rfl, by decide, ?_⟩
  intro h
  have h1 := h inputEnv sampleDead (GameAction.talk "hi") rfl rfl rfl
  revert h1
  decide

/-- C7, amended. Only walk is gated on the dead flag. With dead set, walk never sends a
walk request, and for a local player that is not following it is dropped silently:
state unchanged, no request, no log entry. Every other gated action does not read the
dead flag: it runs on the dead session exactly as on the same session with the flag
cleared. -/
theorem dead_gates_walk_only (env : Env) (s : Game) (hd : s.m_dead = true) :
    (∀ d r, s.walk env d = Except.ok r → r.2.filter Effect.isWalkRequest = []) ∧
    (∀ d p, s.m_localPlayer = some p → p.isFollowing = false →
      s.walk env d = Except.ok (s, [])) ∧
    (∀ a : GameAction, a.isWalk = false →
      a.run env s =
        (a.run env { s with m_dead := false }).map (fun r => ({ r.1 with m_dead := true }, r.2)))
    := by
  rcases s with ⟨lp, pg, onl, dead, beat⟩
  simp only at hd
  subst hd
  refine ⟨?_, ?_, ?_⟩
  · intro d r hr
    rcases lp with _ | p
    · simp [Game.walk] at hr
    · cases hf : p.isFollowing
      · simp [Game.walk, hf, Game.isDead] at hr
        rw [← hr]
        rfl
      · rcases pg with _ | link
        · simp [Game.walk, hf, Game.cancelFollow] at hr
        · simp [Game.walk, hf, Game.cancelFollow] at hr
          rw [← hr]
          rfl
  · intro d p hp hf
    simp only at hp
    subst hp
    simp [Game.walk, hf, Game.isDead]
  · intro a ha
    have h := Game.run_dead_irrelevant env
      { m_localPlayer := lp, m_protocolGame := pg, m_online := onl, m_dead := false,
        m_serverBeat := beat } true a ha
    simpa using h

theorem dead_gates_walk_only_witness :
    sampleDead.walk inputEnv Otc.Direction.North = Except.ok (sampleDead, []) ∧
    (GameAction.attack (some (Creature.mk 3))).run inputEnv sampleDead =
      ((GameAction.attack (some (Creature.mk 3))).run inputEnv
        { sampleDead with m_dead := false }).map
        (fun r => ({ r.1 with m_dead := true }, r.2)) :=
  ⟨(dead_gates_walk_only inputEnv sampleDead rfl).2.1 Otc.Direction.North samplePlayer rfl rfl,
   (dead_gates_walk_only inputEnv sampleDead rfl).2.2 _ rfl⟩

/-- C8. On an offline session without a local player, walk dereferences the empty local
player before it tests the online flag, while every other gated entry point returns at
its online test with the state unchanged and nothing output. -/
theorem offline_walk_faults_others_return (env : Env) (s : Game) (hoff : s.m_online = false)
    (hlp : s.m_localPlayer = none) :
    (∀ d, (GameAction.walk d).run env s = Except.error Fault.nullLocalPlayer) ∧
    (∀ a : GameAction, a.isWalk = false → a.run env s = Except.ok (s, [])) := by
  constructor
  · intro d
    simp [GameAction.run, Game.walk, hlp]
  · intro a ha
    cases a with
    | walk d => simp [GameAction.isWalk] at ha
    | turn d => simp [GameAction.run, Game.turn, hoff]
    | look t => exact Game.withStackpos_offline env s t _ hoff
    | use t => exact Game.withStackpos_offline env s t _ hoff
    | rotate t => exact Game.withStackpos_offline env s t _ hoff
    | attack c => simp [GameAction.run, Game.attack, hoff]
    | follow c => simp [GameAction.run, Game.follow, hoff]
    | talk m => exact Game.forward_offline env s _ hoff
    | talkChannel ty ch m => exact Game.forward_offline env s _ hoff
    | talkPrivate ty r m => exact Game.forward_offline env s _ hoff
    | inviteToParty c => exact Game.forward_offline env s _ hoff
    | openOutfitWindow => exact Game.forward_offline env s _ hoff
    | setOutfit o => exact Game.forward_offline env s _ hoff
    | addVip n => simp [GameAction.run, Game.addVip, hoff]
    | removeVip i => exact Game.forward_offline env s _ hoff

theorem offline_walk_faults_others_return_witness :
    (GameAction.walk Otc.Direction.North).run inputEnv Game.empty =
      Except.error Fault.nullLocalPlayer ∧
    (GameAction.attack (some (Creature.mk 3))).run inputEnv Game.empty =
      Except.ok (Game.empty, []) :=
  ⟨(offline_walk_faults_others_return inputEnv Game.empty rfl rfl).1 Otc.Direction.North,
   (offline_walk_faults_others_return inputEnv Game.empty rfl rfl).2 _ rfl⟩

/-- C9, as stated, fails at walk and at addVip: from a scripting callback outside any input
event, on an online session, walk of a following player sends the follow-cancel request
and clears the following target without a log entry; walk of a dead player and addVip
with an empty name are dropped without a log entry. -/
theorem script_walk_bypasses_bot_check :
    scriptEnv.botProtection = true ∧ scriptEnv.isInCppCallback = true ∧
    scriptEnv.isOnInputEvent = false ∧
    sampleFollowing.m_online = true ∧ sampleDead.m_online = true ∧
    (GameAction.walk Otc.Direction.North).run scriptEnv sampleFollowing =
      Except.ok ({ sampleFollowing with m_localPlayer := some samplePlayer },
        [Effect.send (Request.sendFollow 0)]) ∧
    (GameAction.walk Otc.Direction.North).run scriptEnv sampleDead =
      Except.ok (sampleDead, []) ∧
    (GameAction.addVip "").run scriptEnv sampleOnline = Except.ok (sampleOnline, []) := by
  decide

/-- C9, amended. With the check compiled in, checkBotProtection returns false exactly
when the call comes from a scripting callback outside an input event, and logs one
error line exactly then. On an online session, from such a context, every gated action
with a present target is dropped with the state unchanged, no request and exactly that
one log line, provided that for walk the local player exists, is not following and is
not dead, and that for addVip the name is not empty. -/
theorem bot_protection_drops_scripted_actions (env : Env) (hb : env.botProtection = true) :
    (((Game.checkBotProtection env).1 = false ↔
        (env.isInCppCallback = true ∧ env.isOnInputEvent = false)) ∧
     ((Game.checkBotProtection env).2 =
        if env.isInCppCallback = true ∧ env.isOnInputEvent = false then
          [Effect.logError
            "caught a lua call to a bot protected game function, the call was canceled"]
        else [])) ∧
    (env.isInCppCallback = true → env.isOnInputEvent = false →
      ∀ (s : Game) (a : GameAction), s.m_online = true → a.isTurn = false →
        a.targetPresent = true → a.namePresent = true →
        (a.isWalk = true →
          s.m_dead = false ∧ ∃ p, s.m_localPlayer = some p ∧ p.isFollowing = false) →
        a.run env s = Except.ok (s, [Effect.logError
          "caught a lua call to a bot protected game function, the call was canceled"])) := by
  refine ⟨⟨?_, ?_⟩, ?_⟩
  · cases hc : env.isInCppCallback <;> cases hi : env.isOnInputEvent <;>
      simp [Game.checkBotProtection, hb, hc, hi]
  · cases hc : env.isInCppCallback <;> cases hi : env.isOnInputEvent <;>
      simp [Game.checkBotProtection, hb, hc, hi]
  · intro hc hi s a hon hturn htarget hname hwalk
    have hbot := Game.checkBotProtection_script env hb hc hi
    cases a with
    | walk d =>
      obtain ⟨hdead, p, hp, hf⟩ := hwalk rfl
      simp [GameAction.run, Game.walk, hp, hf, Game.isOnline, Game.isDead, hon, hdead, hbot]
    | turn d => simp [GameAction.isTurn] at hturn
    | look t =>
      cases t with
      | none => simp [GameAction.targetPresent] at htarget
      | some t =>
        simp only [GameAction.run, Game.look]
        exact Game.withStackpos_script env s t _ hon hb hc hi
    | use t =>
      cases t with
      | none => simp [GameAction.targetPresent] at htarget
      | some t =>
        simp only [GameAction.run, Game.use]
        exact Game.withStackpos_script env s t _ hon hb hc hi
    | rotate t =>
      cases t with
      | none => simp [GameAction.targetPresent] at htarget
      | some t =>
        simp only [GameAction.run, Game.rotate]
        exact Game.withStackpos_script env s t _ hon hb hc hi
    | attack c =>
      cases c with
      | none => simp [GameAction.targetPresent] at htarget
      | some c => simp [GameAction.run, Game.attack, hon, hbot]
    | follow c =>
      cases c with
      | none => simp [GameAction.targetPresent] at htarget
      | some c => simp [GameAction.run, Game.follow, hon, hbot]
    | talk m => exact Game.forward_script env s _ hon hb hc hi
    | talkChannel ty ch m => exact Game.forward_script env s _ hon hb hc hi
    | talkPrivate ty r m => exact Game.forward_script env s _ hon hb hc hi
    | inviteToParty c => exact Game.forward_script env s _ hon hb hc hi
    | openOutfitWindow => exact Game.forward_script env s _ hon hb hc hi
    | setOutfit o => exact Game.forward_script env s _ hon hb hc hi
    | addVip n =>
      have hn : n.isEmpty = false := by simpa [GameAction.namePresent] using hname
      simp only [GameAction.run, Game.addVip, hon, hn]
      exact Game.forward_script env s _ hon hb hc hi
    | removeVip i => exact Game.forward_script env s _ hon hb hc hi

theorem bot_protection_drops_scripted_actions_witness :
    (GameAction.walk Otc.Direction.North).run scriptEnv sampleOnline =
      Except.ok (sampleOnline, [Effect.logError
        "caught a lua call to a bot protected game function, the call was canceled"]) ∧
    (GameAction.addVip "Bob").run scriptEnv sampleOnline =
      Except.ok (sampleOnline, [Effect.logError
        "caught a lua call to a bot protected game function, the call was canceled"]) :=
  ⟨(bot_protection_drops_scripted_actions scriptEnv rfl).2 rfl rfl sampleOnline _ rfl rfl rfl rfl
      (fun _ => ⟨rfl, samplePlayer, rfl, rfl⟩),
   (bot_protection_drops_scripted_actions scriptEnv rfl).2 rfl rfl sampleOnline _ rfl rfl rfl
      (by decide) (fun h => absurd h (by decide))⟩

/-- C10. In every session state (the data-model invariant holds) whose local player is
following a creature, walk(d) sends no walk request: its only output is one follow
request with identifier 0, the following target is cleared, and the movement state and
every other field are unchanged. -/
theorem walk_while_following_cancels_follow (env : Env) (s : Game) (p : LocalPlayer)
    (d : Otc.Direction) (hinv : SessionInvariant s) (hp : s.m_localPlayer = some p)
    (hf : p.isFollowing = true) :
    s.walk env d =
      Except.ok ({ s with m_localPlayer := some (p.setFollowingCreature none) },
        [Effect.send (Request.sendFollow 0)]) ∧
    [Effect.send (Request.sendFollow 0)].filter Effect.isWalkRequest = [] ∧
    (p.setFollowingCreature none).isFollowing = false ∧
    (p.setFollowingCreature none).m_followingCreature = none ∧
    (p.setFollowingCreature none).movement = p.movement ∧
    (p.setFollowingCreature none).m_attackingCreature = p.m_attackingCreature := by
  have hon : s.m_online = true := hinv.2 (by simp [hp])
  have hlink : s.m_protocolGame.isSome = true := hinv.1 hon
  obtain ⟨link, hl⟩ := Option.isSome_iff_exists.mp hlink
  refine ⟨?_, rfl, rfl, rfl, rfl, rfl⟩
  simp [Game.walk, hp, hf, Game.cancelFollow, hl]

theorem walk_while_following_cancels_follow_witness :
    sampleFollowing.walk inputEnv Otc.Direction.East =
      Except.ok ({ sampleFollowing with m_localPlayer := some samplePlayer },
        [Effect.send (Request.sendFollow 0)]) :=
  (walk_while_following_cancels_follow inputEnv sampleFollowing sampleFollower
    Otc.Direction.East (by decide) rfl rfl).1

/-! ### Targets, stack positions and deferred events -/

namespace Game

theorem checkBotProtection_pass (env : Env) (h : (checkBotProtection env).1 = true) :
    checkBotProtection env = (true, []) := by
  unfold checkBotProtection at h ⊢
  split
  · next hc => simp [hc] at h
  · rfl

theorem checkBotProtection_no_request (env : Env) :
    (checkBotProtection env).2.filter Effect.isRequest = [] := by
  unfold checkBotProtection
  split <;> simp [Effect.isRequest]

/-- When the stack position is -1, the common body of look, use and rotate returns with
the state unchanged and sends nothing. -/
theorem withStackpos_not_found (env : Env) (g : Game) (t : Thing)
    (req : Thing → Int → Request) (h : getThingStackpos env (some t) = Except.ok (-1)) :
    ∃ out, g.withStackpos env (some t) req = Except.ok (g, out) ∧
      out.filter Effect.isRequest = [] := by
  simp only [withStackpos, h]
  cases hon : g.m_online
  · exact ⟨[], by simp, rfl⟩
  · cases hb : (checkBotProtection env).1
    · exact ⟨(checkBotProtection env).2, by simp, checkBotProtection_no_request env⟩
    · exact ⟨(checkBotProtection env).2, by simp, checkBotProtection_no_request env⟩

/-- When the stack position lookup faults, so does the common body of look, use and
rotate, once its guards have passed. -/
theorem withStackpos_fault (env : Env) (g : Game) (t : Thing) (f : Fault)
    (req : Thing → Int → Request) (h : getThingStackpos env (some t) = Except.error f)
    (hon : g.m_online = true) (hb : (checkBotProtection env).1 = true) :
    g.withStackpos env (some t) req = Except.error f := by
  simp [withStackpos, h, hon, hb]

end Game

/-- C11. On an online session state whose local player is following, with the bot check
passing, attack(c) for a present creature c first cancels the follow and then attacks:
the requests are exactly follow(0) then attack(id of c), the following target ends
empty and the attacking target ends equal to c. -/
theorem attack_while_following_cancels_then_attacks (env : Env) (s : Game) (p : LocalPlayer)
    (c : Creature) (hinv : SessionInvariant s) (hon : s.m_online = true)
    (hp : s.m_localPlayer = some p) (hf : p.isFollowing = true)
    (hbot : (Game.checkBotProtection env).1 = true) :
    s.attack env (some c) =
      Except.ok
        ({ s with
            m_localPlayer := some ((p.setFollowingCreature none).setAttackingCreature (some c)) },
         [Effect.send (Request.sendFollow 0), Effect.send (Request.sendAttack c.id)]) ∧
    ((p.setFollowingCreature none).setAttackingCreature (some c)).m_attackingCreature = some c ∧
    ((p.setFollowingCreature none).setAttackingCreature (some c)).m_followingCreature = none := by
  have hlink : s.m_protocolGame.isSome = true := hinv.1 hon
  obtain ⟨link, hl⟩ := Option.isSome_iff_exists.mp hlink
  refine ⟨?_, rfl, rfl⟩
  simp [Game.attack, hon, Game.checkBotProtection_pass env hbot, hp, hf, Game.cancelFollow, hl]

theorem attack_while_following_cancels_then_attacks_witness :
    sampleFollowing.attack inputEnv (some (Creature.mk 4)) =
      Except.ok
        ({ sampleFollowing with
            m_localPlayer := some (LocalPlayer.mk 7 (some (Creature.mk 4)) none 0) },
         [Effect.send (Request.sendFollow 0), Effect.send (Request.sendAttack 4)]) :=
  (attack_while_following_cancels_then_attacks inputEnv sampleFollowing sampleFollower
    (Creature.mk 4) (by decide) rfl rfl rfl rfl).1

/-- C12. getThingStackpos of a thing whose first coordinate is 65535 is 0 under every map;
of a thing whose first coordinate is not 65535 and whose tile exists it is the index that
the tile reports for the thing. -/
theorem getThingStackpos_by_space (env : Env) (t : Thing) :
    (t.pos.x = 65535 → ∀ env1 : Env, Game.getThingStackpos env1 (some t) = Except.ok 0) ∧
    (t.pos.x ≠ 65535 → ∀ tile, env.getTile t.pos = some tile →
      Game.getThingStackpos env (some t) = Except.ok (tile.getThingStackpos t)) := by
  constructor
  · intro hx env1
    simp [Game.getThingStackpos, hx]
  · intro hx tile ht
    simp [Game.getThingStackpos, hx, ht]

theorem getThingStackpos_by_space_witness :
    Game.getThingStackpos scriptEnv (some sampleCarried) = Except.ok 0 ∧
    Game.getThingStackpos mapEnv (some sampleThing) = Except.ok 1 :=
  ⟨(getThingStackpos_by_space mapEnv sampleCarried).1 rfl scriptEnv,
   (getThingStackpos_by_space mapEnv sampleThing).2 (by decide) _ rfl⟩

/-- C13. For a thing in map space: when its tile exists and does not hold it,
getThingStackpos returns -1 and look, use and rotate return with the state unchanged and
send nothing; when the map has no tile at its position, getThingStackpos dereferences the
empty tile, and so do look, use and rotate once their guards have passed. -/
theorem missing_tile_is_dereferenced (env : Env) (t : Thing) (hx : t.pos.x ≠ 65535) :
    (∀ tile, env.getTile t.pos = some tile → t ∉ tile.things →
      Game.getThingStackpos env (some t) = Except.ok (-1) ∧
      ∀ g : Game,
        (∃ out, g.look env (some t) = Except.ok (g, out) ∧ out.filter Effect.isRequest = []) ∧
        (∃ out, g.use env (some t) = Except.ok (g, out) ∧ out.filter Effect.isRequest = []) ∧
        (∃ out, g.rotate env (some t) = Except.ok (g, out) ∧
          out.filter Effect.isRequest = [])) ∧
    (env.getTile t.pos = none →
      Game.getThingStackpos env (some t) = Except.error Fault.nullTile ∧
      ∀ g : Game, g.m_online = true → (Game.checkBotProtection env).1 = true →
        g.look env (some t) = Except.error Fault.nullTile ∧
        g.use env (some t) = Except.error Fault.nullTile ∧
        g.rotate env (some t) = Except.error Fault.nullTile) := by
  constructor
  · intro tile ht hmem
    have h : Game.getThingStackpos env (some t) = Except.ok (-1) := by
      simp [Game.getThingStackpos, hx, ht, Tile.getThingStackpos, hmem]
    exact ⟨h, fun g => ⟨Game.withStackpos_not_found env g t _ h,
      Game.withStackpos_not_found env g t _ h, Game.withStackpos_not_found env g t _ h⟩⟩
  · intro ht
    have h : Game.getThingStackpos env (some t) = Except.error Fault.nullTile := by
      simp [Game.getThingStackpos, hx, ht]
    exact ⟨h, fun g hon hb => ⟨Game.withStackpos_fault env g t _ _ h hon hb,
      Game.withStackpos_fault env g t _ _ h hon hb, Game.withStackpos_fault env g t _ _ h hon hb⟩⟩

theorem missing_tile_is_dereferenced_witness :
    Game.getThingStackpos mapEnv (some sampleStray) = Except.ok (-1) ∧
    Game.getThingStackpos mapEnv (some sampleLost) = Except.error Fault.nullTile ∧
    sampleOnline.look mapEnv (some sampleLost) = Except.error Fault.nullTile :=
  ⟨((missing_tile_is_dereferenced mapEnv sampleStray (by decide)).1 _ rfl (by decide)).1,
   ((missing_tile_is_dereferenced mapEnv sampleLost (by decide)).2 rfl).1,
   (((missing_tile_is_dereferenced mapEnv sampleLost (by decide)).2 rfl).2
      sampleOnline rfl rfl).1⟩

/-- C14. processDeath sets dead, leaves online, the local player, the protocol link and
the server beat unchanged, and outputs exactly the onDeath notification followed by one
scheduled event with delay 5000 whose callback runs logout(true); it sends no request. -/
theorem processDeath_behaviour (s : Game) :
    s.processDeath =
      ({ s with m_dead := true },
       [Effect.onDeath, Effect.scheduleEvent Callback.forceLogout 5000]) ∧
    s.processDeath.1.m_dead = true ∧
    s.processDeath.1.m_online = s.m_online ∧
    s.processDeath.1.m_localPlayer = s.m_localPlayer ∧
    s.processDeath.1.m_protocolGame = s.m_protocolGame ∧
    s.processDeath.1.m_serverBeat = s.m_serverBeat ∧
    (∀ g : Game, Callback.run Callback.forceLogout g = g.logout true) ∧
    s.processDeath.2.filter Effect.isRequest = [] :=
  ⟨rfl, rfl, rfl, rfl, rfl, rfl, fun _ => rfl, rfl⟩

/-- What one target operation must return: a session with the same online flag, a
protocol link and a local player whose targets are exclusive. -/
theorem Game.keeps_exclusive_of (g : Game) (res : Except Fault (Game × List Effect))
    (h : match res with
      | Except.error _ => False
      | Except.ok r =>
        r.1.m_protocolGame.isSome = true ∧ r.1.m_online = g.m_online ∧
        match r.1.m_localPlayer with
        | none => False
        | some p1 => p1.m_attackingCreature = none ∨ p1.m_followingCreature = none) :
    ∃ r p1, res = Except.ok r ∧ r.1.m_protocolGame.isSome = true ∧
      r.1.m_online = g.m_online ∧ r.1.m_localPlayer = some p1 ∧
      (p1.m_attackingCreature = none ∨ p1.m_followingCreature = none) := by
  rcases res with f | r
  · exact absurd h id
  · obtain ⟨h1, h2, h3⟩ := h
    cases hp : r.1.m_localPlayer with
    | none => simp [hp] at h3
    | some p1 =>
      simp only [hp] at h3
      exact ⟨r, p1, rfl, h1, h2, hp, h3⟩

theorem Game.attack_keeps_exclusive (env : Env) (c : Option Creature) (link : ProtocolGame)
    (p : LocalPlayer) (onl dead : Bool) (beat : Int)
    (hx : p.m_attackingCreature = none ∨ p.m_followingCreature = none) :
    match Game.attack env ⟨some p, some link, onl, dead, beat⟩ c with
      | Except.error _ => False
      | Except.ok r =>
        r.1.m_protocolGame.isSome = true ∧ r.1.m_online = onl ∧
        match r.1.m_localPlayer with
        | none => False
        | some p1 => p1.m_attackingCreature = none ∨ p1.m_followingCreature = none := by
  rcases p with ⟨id, att, fol, mv⟩
  simp only [Game.attack, Game.cancelFollow]
  generalize Game.checkBotProtection env = bot
  rcases bot with ⟨ok, log⟩
  cases c <;> cases onl <;> cases ok <;> cases fol <;>
    simp [LocalPlayer.isFollowing, LocalPlayer.setAttackingCreature,
      LocalPlayer.setFollowingCreature] <;> simpa using hx

theorem Game.follow_keeps_exclusive (env : Env) (c : Option Creature) (link : ProtocolGame)
    (p : LocalPlayer) (onl dead : Bool) (beat : Int)
    (hx : p.m_attackingCreature = none ∨ p.m_followingCreature = none) :
    match Game.follow env ⟨some p, some link, onl, dead, beat⟩ c with
      | Except.error _ => False
      | Except.ok r =>
        r.1.m_protocolGame.isSome = true ∧ r.1.m_online = onl ∧
        match r.1.m_localPlayer with
        | none => False
        | some p1 => p1.m_attackingCreature = none ∨ p1.m_followingCreature = none := by
  rcases p with ⟨id, att, fol, mv⟩
  simp only [Game.follow, Game.cancelAttack]
  generalize Game.checkBotProtection env = bot
  rcases bot with ⟨ok, log⟩
  cases c <;> cases onl <;> cases ok <;> cases att <;>
    simp [LocalPlayer.isAttacking, LocalPlayer.setAttackingCreature,
      LocalPlayer.setFollowingCreature] <;> simpa using hx

theorem Game.walk_keeps_exclusive (env : Env) (d : Otc.Direction) (link : ProtocolGame)
    (p : LocalPlayer) (onl dead : Bool) (beat : Int)
    (hx : p.m_attackingCreature = none ∨ p.m_followingCreature = none) :
    match Game.walk env ⟨some p, some link, onl, dead, beat⟩ d with
      | Except.error _ => False
      | Except.ok r =>
        r.1.m_protocolGame.isSome = true ∧ r.1.m_online = onl ∧
        match r.1.m_localPlayer with
        | none => False
        | some p1 => p1.m_attackingCreature = none ∨ p1.m_followingCreature = none := by
  rcases p with ⟨id, att, fol, mv⟩
  simp only [Game.walk, Game.cancelFollow, Game.isOnline, Game.isDead]
  generalize Game.checkBotProtection env = bot
  generalize env.canWalk _ d = cw
  rcases bot with ⟨ok, log⟩
  cases onl <;> cases dead <;> cases ok <;> cases cw <;> cases fol <;>
    simp [LocalPlayer.isFollowing, LocalPlayer.setFollowingCreature, LocalPlayer.clientWalk]

/-- One target operation, run on a session with a protocol link and a local player whose
targets are exclusive, returns, and returns such a session again. -/
theorem TargetOp.run_keeps_exclusive (env : Env) (op : TargetOp) (g : Game) (p : LocalPlayer)
    (hl : g.m_protocolGame.isSome = true) (hp : g.m_localPlayer = some p)
    (hx : p.m_attackingCreature = none ∨ p.m_followingCreature = none) :
    ∃ r p1, op.run env g = Except.ok r ∧ r.1.m_protocolGame.isSome = true ∧
      r.1.m_online = g.m_online ∧ r.1.m_localPlayer = some p1 ∧
      (p1.m_attackingCreature = none ∨ p1.m_followingCreature = none) := by
  rcases g with ⟨lp, pg, onl, dead, beat⟩
  simp only at hp hl
  subst hp
  obtain ⟨link, rfl⟩ := Option.isSome_iff_exists.mp hl
  apply Game.keeps_exclusive_of
  cases op with
  | attack c => exact Game.attack_keeps_exclusive env c link p onl dead beat hx
  | follow c => exact Game.follow_keeps_exclusive env c link p onl dead beat hx
  | cancelAttack =>
    simp [TargetOp.run, Game.cancelAttack, LocalPlayer.setAttackingCreature]
  | cancelFollow =>
    simp [TargetOp.run, Game.cancelFollow, LocalPlayer.setFollowingCreature]
  | walk d => exact Game.walk_keeps_exclusive env d link p onl dead beat hx
  | processAttackCancel =>
    rcases p with ⟨id, att, fol, mv⟩
    cases att <;>
      simp [TargetOp.run, Game.processAttackCancel, LocalPlayer.isAttacking,
        LocalPlayer.setAttackingCreature]

theorem runTargets_keeps_exclusive (ops : List (Env × TargetOp)) (g : Game) (p : LocalPlayer)
    (hl : g.m_protocolGame.isSome = true) (hp : g.m_localPlayer = some p)
    (hx : p.m_attackingCreature = none ∨ p.m_followingCreature = none) :
    ∃ g1 p1, runTargets ops g = Except.ok g1 ∧ g1.m_online = g.m_online ∧
      g1.m_localPlayer = some p1 ∧
      (p1.m_attackingCreature = none ∨ p1.m_followingCreature = none) := by
  induction ops generalizing g p with
  | nil => exact ⟨g, p, rfl, rfl, hp, hx⟩
  | cons eo ops ih =>
    obtain ⟨env, op⟩ := eo
    obtain ⟨r, p1, hr, hl1, hon1, hp1, hx1⟩ := TargetOp.run_keeps_exclusive env op g p hl hp hx
    obtain ⟨g2, p2, h2, hon2, hp2, hx2⟩ := ih r.1 p1 hl1 hp1 hx1
    refine ⟨g2, p2, ?_, hon2.trans hon1, hp2, hx2⟩
    simp only [runTargets, hr]
    exact h2

/-- C15, as stated, fails: an online session whose player is dead is still marked dead
after logout(true), and after processLogout. -/
theorem logout_keeps_dead_flag :
    sampleDead.m_online = true ∧ sampleDead.m_dead = true ∧
    (sampleDead.logout true).1.m_online = false ∧
    (sampleDead.logout true).1.m_dead = true ∧
    sampleDead.processLogout.1.m_dead = true := by
  decide

/-- C15, amended. The logout teardown does not write the dead flag: processLogout and
logout(force) leave it as it was. The flag is cleared by loginWorld, so a session that
died stays marked dead from the teardown until the next login request. -/
theorem dead_flag_cleared_by_loginWorld_only (s : Game) (force : Bool)
    (account password worldHost : String) (worldPort : Int) (characterName : String) :
    s.processLogout.1.m_dead = s.m_dead ∧
    (s.logout force).1.m_dead = s.m_dead ∧
    ((s.logout force).1.loginWorld account password worldHost worldPort characterName).1.m_dead
      = false := by
  refine ⟨?_, ?_, rfl⟩
  · rw [Game.processLogout_fst]
  · simp only [Game.logout]
    split
    · rfl
    · split
      · rw [Game.processLogout_fst]
      · rfl

/-- C16. After processDeath and a manual logout(true), the scheduled callback, run with
nothing in between, leaves the state unchanged and outputs nothing. This holds from every
state, so in particular from every online state with a protocol link, where the manual
logout has torn the session down. -/
theorem deferred_logout_after_manual_logout_is_noop (s : Game) :
    Callback.run Callback.forceLogout (s.processDeath.1.logout true).1 =
      ((s.processDeath.1.logout true).1, []) ∧
    ((s.m_online = true ∧ s.m_protocolGame ≠ none) →
      (s.processDeath.1.logout true).1.m_online = false ∧
      (s.processDeath.1.logout true).1.m_protocolGame = none) := by
  rcases s with ⟨lp, pg, onl, dead, beat⟩
  cases onl <;> cases pg <;>
    simp [Callback.run, Game.forceLogout, Game.logout, Game.processDeath, Game.processLogout]

theorem deferred_logout_after_manual_logout_is_noop_witness :
    (sampleOnline.processDeath.1.logout true).1.m_online = false ∧
    (sampleOnline.processDeath.1.logout true).1.m_protocolGame = none :=
  (deferred_logout_after_manual_logout_is_noop sampleOnline).2 ⟨rfl, by decide⟩

/-- C17. A request sent by addVip is the add-VIP request with the given name, and it is
sent only when the session is online, the name is not empty and the bot check passes;
on a session state (online implies a protocol link) these three conditions make addVip
send exactly that request. With the empty name addVip returns with the state unchanged
and nothing output, from every state. -/
theorem addVip_sends_iff_guards_pass (env : Env) (s : Game) (name : String) :
    (∀ r e, s.addVip env name = Except.ok r → e ∈ r.2 → e.isRequest = true →
      e = Effect.send (Request.sendAddVip name) ∧
      s.m_online = true ∧ name.isEmpty = false ∧ (Game.checkBotProtection env).1 = true) ∧
    (SessionInvariant s → s.m_online = true → name.isEmpty = false →
      (Game.checkBotProtection env).1 = true →
      s.addVip env name = Except.ok (s, [Effect.send (Request.sendAddVip name)])) ∧
    (SessionInvariant s →
      (Effect.send (Request.sendAddVip name) ∈ requestsOf (s.addVip env name) ↔
        (s.m_online = true ∧ name.isEmpty = false ∧
          (Game.checkBotProtection env).1 = true))) ∧
    s.addVip env "" = Except.ok (s, []) := by
  have hpos : SessionInvariant s → s.m_online = true → name.isEmpty = false →
      (Game.checkBotProtection env).1 = true →
      s.addVip env name = Except.ok (s, [Effect.send (Request.sendAddVip name)]) := by
    intro hinv hon hn hb
    obtain ⟨link, hl⟩ := Option.isSome_iff_exists.mp (hinv.1 hon)
    simp [Game.addVip, Game.forward, hon, hn, Game.checkBotProtection_pass env hb, hl]
  have hneg : ∀ r e, s.addVip env name = Except.ok r → e ∈ r.2 → e.isRequest = true →
      e = Effect.send (Request.sendAddVip name) ∧
      s.m_online = true ∧ name.isEmpty = false ∧ (Game.checkBotProtection env).1 = true := by
    intro r e hr he hreq
    simp only [Game.addVip, Game.forward] at hr
    cases hon : s.m_online
    · simp [hon] at hr
      subst hr
      simp at he
    · cases hn : name.isEmpty
      · cases hb : (Game.checkBotProtection env).1
        · simp [hon, hn, hb] at hr
          subst hr
          have := Game.checkBotProtection_no_request env
          simp only [List.filter_eq_nil_iff] at this
          exact absurd hreq (this e he)
        · have hb2 := Game.checkBotProtection_pass env hb
          cases hl : s.m_protocolGame
          · simp [hon, hn, hb2, hl] at hr
          · simp [hon, hn, hb2, hl] at hr
            subst hr
            simp at he
            exact ⟨he, rfl, rfl, rfl⟩
      · simp [hon, hn] at hr
        subst hr
        simp at he
  refine ⟨hneg, hpos, ?_, ?_⟩
  · intro hinv
    constructor
    · intro hmem
      cases hr : s.addVip env name with
      | error f => simp [requestsOf, hr] at hmem
      | ok r =>
        simp only [requestsOf, hr, List.mem_filter] at hmem
        exact (hneg r _ hr hmem.1 hmem.2).2
    · rintro ⟨hon, hn, hb⟩
      simp [requestsOf, hpos hinv hon hn hb, Effect.isRequest]
  · cases hon : s.m_online <;> simp [Game.addVip, hon, String.isEmpty]

theorem addVip_sends_iff_guards_pass_witness :
    sampleOnline.addVip inputEnv "Bob" =
      Except.ok (sampleOnline, [Effect.send (Request.sendAddVip "Bob")]) ∧
    sampleOnline.addVip inputEnv "" = Except.ok (sampleOnline, []) :=
  ⟨(addVip_sends_iff_guards_pass inputEnv sampleOnline "Bob").2.1 (by decide) rfl (by decide) rfl,
   (addVip_sends_iff_guards_pass inputEnv sampleOnline "Bob").2.2.2⟩

/-- C18. From an online session state whose local player has neither an attacking nor a
following target, every sequence of attack, follow, cancelAttack, cancelFollow, walk and
processAttackCancel, with any arguments and any outcome of the bot check at each call,
runs without fault and ends with a local player that does not hold an attacking target
and a following target at once. -/
theorem attacking_and_following_exclusive (ops : List (Env × TargetOp)) (s : Game)
    (p : LocalPlayer) (hinv : SessionInvariant s) (hon : s.m_online = true)
    (hp : s.m_localPlayer = some p) (ha : p.m_attackingCreature = none)
    (hf : p.m_followingCreature = none) :
    ∃ g1 p1, runTargets ops s = Except.ok g1 ∧ g1.m_localPlayer = some p1 ∧
      ¬ (p1.m_attackingCreature ≠ none ∧ p1.m_followingCreature ≠ none) ∧
      ¬ (p1.isAttacking = true ∧ p1.isFollowing = true) ∧
      targetsExclusive g1 = true := by
  have hnone : p.m_attackingCreature = none ∧ p.m_followingCreature = none := ⟨ha, hf⟩
  obtain ⟨g1, p1, hr, -, hp1, hx⟩ :=
    runTargets_keeps_exclusive ops s p (hinv.1 hon) hp (Or.inl hnone.1)
  refine ⟨g1, p1, hr, hp1, ?_, ?_, ?_⟩
  · rintro ⟨h1, h2⟩
    rcases hx with h | h
    · exact h1 h
    · exact h2 h
  · rintro ⟨h1, h2⟩
    rcases hx with h | h
    · simp [LocalPlayer.isAttacking, h] at h1
    · simp [LocalPlayer.isFollowing, h] at h2
  · rcases hx with h | h <;>
      simp [targetsExclusive, hp1, LocalPlayer.isAttacking, LocalPlayer.isFollowing, h]

theorem attacking_and_following_exclusive_witness :
    ∃ g1 p1, runTargets sampleTargetRun sampleOnline = Except.ok g1 ∧
      g1.m_localPlayer = some p1 ∧
      ¬ (p1.m_attackingCreature ≠ none ∧ p1.m_followingCreature ≠ none) ∧
      ¬ (p1.isAttacking = true ∧ p1.isFollowing = true) ∧
      targetsExclusive g1 = true :=
  attacking_and_following_exclusive sampleTargetRun sampleOnline samplePlayer (by decide)
    rfl rfl rfl rfl

/-- C19. The death timer is not bound to the session that scheduled it. processDeath
schedules the forceLogout callback; after a manual logout(true), a new loginWorld and
processLogin(P2), the callback finds the new session online with its link, sends a logout
request and tears that session down: onLogout is notified with P2, the link is
disconnected, and online, the local player and the link are cleared. This holds from
every starting state, an online one included. -/
theorem death_timer_tears_down_next_session (s : Game) (P2 : Option LocalPlayer)
    (account password worldHost : String) (worldPort : Int) (characterName : String) :
    Effect.scheduleEvent Callback.forceLogout 5000 ∈ s.processDeath.2 ∧
    ((((s.processDeath.1.logout true).1.loginWorld account password worldHost worldPort
        characterName).1.processLogin P2).1.m_online = true) ∧
    Callback.run Callback.forceLogout
      (((s.processDeath.1.logout true).1.loginWorld account password worldHost worldPort
        characterName).1.processLogin P2).1 =
      ({ m_localPlayer := none, m_protocolGame := none, m_online := false, m_dead := false,
         m_serverBeat := s.m_serverBeat },
       [Effect.send Request.sendLogout, Effect.onLogout P2, Effect.disconnect]) := by
  rcases s with ⟨lp, pg, onl, dead, beat⟩
  refine ⟨by simp [Game.processDeath], rfl, ?_⟩
  cases onl <;> cases pg <;>
    simp [Callback.run, Game.forceLogout, Game.logout, Game.processLogin, Game.loginWorld,
      Game.processLogout, Game.processDeath]

/-- C20. For a present item, processInventoryChange(slot, item) stamps the item with the
position (65535, slot, 0) and outputs the onInventoryChange notification with that slot
and item, and getThingStackpos of the stamped item is 0 under every map. For an absent
item the notification is still output. The session fields are unchanged in both cases. -/
theorem inventory_items_resolve_to_zero (g : Game) (slot : Int) (item : Thing) (env : Env) :
    g.processInventoryChange slot (some item) =
      (g, some { item with pos := Position.mk 65535 slot 0 },
       [Effect.onInventoryChange slot (some { item with pos := Position.mk 65535 slot 0 })]) ∧
    Game.getThingStackpos env (g.processInventoryChange slot (some item)).2.1 = Except.ok 0 ∧
    g.processInventoryChange slot none = (g, none, [Effect.onInventoryChange slot none]) := by
  refine ⟨rfl, ?_, rfl⟩
  simp [Game.processInventoryChange, Game.getThingStackpos]
